import Mathlib

/-
Verification of the task-tracker core (src/script.js, class TaskTracker).

The class owns two pieces of state, `this.tasks` (an array of task objects)
and `this.filter` (a string), plus the browser localStorage it writes to.
We embed the state as a structure holding `tasks`, `filter`, and `writes`,
where `writes` is the log of values passed to localStorage.setItem under the
fixed key "tasks" (each entry is the serialized form of the array written).

JSON.stringify / JSON.parse are runtime builtins, not repository code; they
are embedded at the level of a JSON value tree: serialization produces a
`Json` value, and parsing a stored string yields `Except Unit Json` (error on
unparsable input such as the string "not json").  `crypto.randomUUID()` and
`Date.now()` are likewise external; methods that call them take the produced
id and timestamp as explicit parameters.

DOM access, console logging and the render method touch no core state and
are omitted; the two event handlers that do touch core state (handleSubmit,
handleFilterClick) are embedded with their already-extracted event data as
parameters (the raw input value; the data-filter attribute of the clicked
button, `none` when the click hit no filter button).
-/

namespace Script

/-- JSON value trees, as produced by JSON.parse and consumed by
JSON.stringify.  Numbers are integers: every number this program stores
(createdAt, from Date.now()) is an integer. -/
inductive Json where
  | null
  | bool (b : Bool)
  | num (n : Int)
  | str (s : String)
  | arr (elems : List Json)
  | obj (fields : List (String × Json))

/-- One task object, with the four fields built in addTask
(src/script.js lines 323-328). -/
structure Task where
  id : String
  text : String
  completed : Bool
  createdAt : Int
deriving DecidableEq

/-- The core state of the TaskTracker class: the tasks array, the filter
string, and the log of localStorage.setItem writes under the key "tasks". -/
structure TaskTracker where
  tasks : List Task
  filter : String
  writes : List Json

/-- The whitespace class stripped by JavaScript String.prototype.trim:
tab, LF, VT, FF, CR, space, NBSP, the Unicode space separators, the line
and paragraph separators, and the BOM. -/
def jsWhitespace (c : Char) : Bool :=
  let n := c.toNat
  n == 0x9 || n == 0xA || n == 0xB || n == 0xC || n == 0xD || n == 0x20 ||
  n == 0xA0 || n == 0x1680 || (decide (0x2000 ≤ n) && decide (n ≤ 0x200A)) ||
  n == 0x2028 || n == 0x2029 || n == 0x202F || n == 0x205F || n == 0x3000 ||
  n == 0xFEFF

/-- JavaScript String.prototype.trim: drop leading and trailing
jsWhitespace characters. -/
def jsTrim (s : String) : String :=
  String.mk (((s.data.dropWhile jsWhitespace).reverse.dropWhile jsWhitespace).reverse)

/-- Serialization of one task object, as JSON.stringify lays it out
(fields in insertion order: id, text, completed, createdAt). -/
def taskToJson (t : Task) : Json :=
  Json.obj [("id", Json.str t.id), ("text", Json.str t.text),
            ("completed", Json.bool t.completed), ("createdAt", Json.num t.createdAt)]

/-- Serialization of the tasks array, as JSON.stringify(this.tasks)
lays it out. -/
def tasksToJson (ts : List Task) : Json :=
  Json.arr (ts.map taskToJson)

/-- Field-for-field reconstruction of one task from its stored shape
(spec section 6: an object with fields id, text, completed, createdAt).
Used to state that a persisted value determines the task record. -/
def taskFromJson : Json → Option Task
  | Json.obj [("id", Json.str i), ("text", Json.str x),
              ("completed", Json.bool c), ("createdAt", Json.num n)] =>
    some { id := i, text := x, completed := c, createdAt := n }
  | _ => none

/-- Field-for-field reconstruction of a list of tasks. -/
def tasksFromJsonList : List Json → Option (List Task)
  | [] => some []
  | j :: rest =>
    match taskFromJson j, tasksFromJsonList rest with
    | some t, some ts => some (t :: ts)
    | _, _ => none

/-- Field-for-field reconstruction of the stored tasks array. -/
def tasksFromJson : Json → Option (List Task)
  | Json.arr js => tasksFromJsonList js
  | _ => none

/-- loadTasks (src/script.js lines 153-169): JSON.parse(saved) inside
try/catch, with nullish fallback to [].  The argument is the outcome of
JSON.parse on the stored string: Except.error when the string is
unparsable (the catch branch returns []); Except.ok Json.null when the
key is absent (getItem gives null, JSON.parse(null) parses the coerced
string "null" to null, and the nullish operator replaces it with []);
any other successfully parsed value is returned as is, with no shape
check. -/
def TaskTracker.loadTasks (parsed : Except Unit Json) : Json :=
  match parsed with
  | Except.error _ => Json.arr []
  | Except.ok Json.null => Json.arr []
  | Except.ok j => j

/-- saveTasks (src/script.js lines 177-184): one
localStorage.setItem("tasks", JSON.stringify(this.tasks)) call, logged
here as appending the serialized current tasks array to the write log. -/
def TaskTracker.saveTasks (s : TaskTracker) : TaskTracker :=
  { s with writes := s.writes ++ [tasksToJson s.tasks] }

/-- addTask (src/script.js lines 322-340): build the new task object from
the generated id, the given text as passed (no trim, no emptiness check),
completed false and the current time; unshift it onto tasks; saveTasks.
The JS method has no return statement, so its value is undefined,
embedded as the second component none. -/
def TaskTracker.addTask (freshId : String) (now : Int) (text : String)
    (s : TaskTracker) : TaskTracker × Option Task :=
  let newTask : Task := { id := freshId, text := text, completed := false, createdAt := now }
  (TaskTracker.saveTasks { s with tasks := newTask :: s.tasks }, none)

/-- toggleTask (src/script.js lines 353-370): map over tasks, replacing the
task whose id matches with a copy whose completed flag is negated; then
saveTasks unconditionally. -/
def TaskTracker.toggleTask (id : String) (s : TaskTracker) : TaskTracker :=
  TaskTracker.saveTasks
    { s with tasks := s.tasks.map (fun t => if t.id = id then { t with completed := !t.completed } else t) }

/-- deleteTask (src/script.js lines 380-393): keep the tasks whose id does
not match; then saveTasks unconditionally. -/
def TaskTracker.deleteTask (id : String) (s : TaskTracker) : TaskTracker :=
  TaskTracker.saveTasks { s with tasks := s.tasks.filter (fun t => t.id != id) }

/-- getVisibleTasks (src/script.js lines 407-427): a read that filters by
the current filter string; "active" keeps the not-completed tasks,
"completed" keeps the completed ones, and every other value falls through
to the else branch returning this.tasks.  The method assigns to no state
and calls no storage API, so the state component of the result is the
input state. -/
def TaskTracker.getVisibleTasks (s : TaskTracker) : TaskTracker × List Task :=
  if s.filter = "active" then (s, s.tasks.filter (fun t => !t.completed))
  else if s.filter = "completed" then (s, s.tasks.filter (fun t => t.completed))
  else (s, s.tasks)

/-- handleSubmit (src/script.js lines 201-228): trim the raw input value;
if the result is empty, return without touching state; otherwise call
addTask with the trimmed text (input clearing and render are DOM work  and
touch no core state). -/
def TaskTracker.handleSubmit (inputValue : String) (freshId : String) (now : Int)
    (s : TaskTracker) : TaskTracker :=
  let text := jsTrim inputValue
  if text = "" then s
  else (TaskTracker.addTask freshId now text s).1

/-- handleFilterClick (src/script.js lines 287-302): if the click resolves
to no element carrying a data-filter attribute, return; otherwise assign
the attribute value to this.filter with no validation.  The argument is
the resolved attribute value (none when no button was hit). -/
def TaskTracker.handleFilterClick (btnFilter : Option String) (s : TaskTracker) : TaskTracker :=
  match btnFilter with
  | none => s
  | some f => { s with filter := f }

/-- The store as the constructor builds it over empty storage: tasks from
loadTasks (empty), filter "all", nothing yet written. -/
def TaskTracker.initial : TaskTracker :=
  { tasks := [], filter := "all", writes := [] }

/-- One store-level mutation, for quantifying over operation sequences. -/
inductive Op where
  | add (freshId : String) (now : Int) (text : String)
  | toggle (id : String)
  | delete (id : String)

/-- Apply one mutation to the store. -/
def applyOp (s : TaskTracker) (o : Op) : TaskTracker :=
  match o with
  | Op.add freshId now text => (TaskTracker.addTask freshId now text s).1
  | Op.toggle id => TaskTracker.toggleTask id s
  | Op.delete id => TaskTracker.deleteTask id s

/-- Apply a sequence of mutations to the store, left to right. -/
def applyOps (s : TaskTracker) (ops : List Op) : TaskTracker :=
  ops.foldl applyOp s

/-- Round trip of one task through its serialized shape. -/
theorem taskFromJson_taskToJson (t : Task) : taskFromJson (taskToJson t) = some t := rfl

/-- Round trip of a task list through its serialized shape. -/
theorem tasksFromJsonList_map (ts : List Task) :
    tasksFromJsonList (ts.map taskToJson) = some ts := by
  induction ts with
  | nil => rfl
  | cons t ts ih => simp [tasksFromJsonList, taskFromJson_taskToJson, ih]

/-- Mapping the toggle replacement over a list in which no id matches
changes nothing. -/
theorem map_toggle_of_no_match (id : String) (l : List Task)
    (h : ∀ t ∈ l, t.id ≠ id) :
    l.map (fun t => if t.id = id then { t with completed := !t.completed } else t) = l := by
  induction l with
  | nil => rfl
  | cons t l ih =>
    have ht : t.id ≠ id := h t (List.mem_cons_self t l)
    simp only [List.map_cons, if_neg ht]
    rw [ih (fun u hu => h u (List.mem_cons_of_mem t hu))]

/-- C1, counterexample: the store-level add operation (addTask) does not
reject empty text.  addTask with the empty string creates a task whose
text is empty, changes the tasks sequence, and performs a persistence
write, contradicting the claim that store-level add is a no-op on
empty-after-trim text. -/
theorem addTask_accepts_empty_text :
    (TaskTracker.addTask "id0" 0 "" TaskTracker.initial).1.tasks =
      [{ id := "id0", text := "", completed := false, createdAt := 0 }]
  ∧ (TaskTracker.addTask "id0" 0 "" TaskTracker.initial).1.tasks ≠ TaskTracker.initial.tasks
  ∧ (TaskTracker.addTask "id0" 0 "" TaskTracker.initial).1.writes ≠ TaskTracker.initial.writes := by
  refine ⟨rfl, ?_, ?_⟩ <;>
    simp [TaskTracker.addTask, TaskTracker.saveTasks, TaskTracker.initial]

/-- C1, amended: the empty-input rejection lives in the submit handler,
not in addTask.  handleSubmit with an input value that trims to the empty
string leaves the whole store (tasks, filter, write log) unchanged: no
task is created and no persistence write occurs. -/
theorem handleSubmit_empty_input_noop (inputValue freshId : String) (now : Int)
    (s : TaskTracker) (h : jsTrim inputValue = "") :
    TaskTracker.handleSubmit inputValue freshId now s = s := by
  simp [TaskTracker.handleSubmit, h]

/-- C1, witness: submitting three spaces is a no-op on the freshly
constructed store. -/
theorem handleSubmit_empty_input_noop_w :
    jsTrim "   " = ""
  ∧ TaskTracker.handleSubmit "   " "fid" 0 TaskTracker.initial = TaskTracker.initial :=
  ⟨rfl, handleSubmit_empty_input_noop "   " "fid" 0 TaskTracker.initial rfl⟩

/-- C2, counterexample: the filter click handler validates nothing.
Receiving the value "bogus" on the freshly constructed store (whose
filter is "all") overwrites the filter with "bogus" instead of being a
no-op that retains the previous value, so the claimed invariant that the
filter is always one of the three enumerated values fails in a reachable
state. -/
theorem handleFilterClick_accepts_bogus :
    (TaskTracker.handleFilterClick (some "bogus") TaskTracker.initial).filter = "bogus"
  ∧ (TaskTracker.handleFilterClick (some "bogus") TaskTracker.initial).filter
      ≠ TaskTracker.initial.filter :=
  ⟨rfl, by decide⟩

/-- C2, amended: the set-filter operation assigns whatever value the
clicked button carries, with no validation; it is a no-op only when the
click resolves to no filter button.  Unrecognized values therefore do
propagate into the filter field. -/
theorem handleFilterClick_assigns_any_value :
    (∀ (f : String) (s : TaskTracker),
      TaskTracker.handleFilterClick (some f) s = { s with filter := f })
  ∧ (∀ s : TaskTracker, TaskTracker.handleFilterClick none s = s) :=
  ⟨fun _ _ => rfl, fun _ => rfl⟩

/-- C3, counterexample: a stored value that parses successfully to a
non-array shape is not replaced by the empty sequence.  Loading a stored
string that parses to the number 5 yields the number 5 as the tasks
value, not the empty array. -/
theorem loadTasks_keeps_wrong_shape :
    TaskTracker.loadTasks (Except.ok (Json.num 5)) = Json.num 5
  ∧ TaskTracker.loadTasks (Except.ok (Json.num 5)) ≠ Json.arr [] :=
  ⟨rfl, fun h => Json.noConfusion h⟩

/-- C3, amended: at construction the store recovers with the empty
sequence exactly when the stored string is absent (the parse yields null)
or unparsable (the parse fails, as for the string "not json"); any other
successfully parsed value, of whatever shape, is kept as the tasks value
unchanged.  No failure is raised in any case. -/
theorem loadTasks_recovery_spec :
    (∀ e : Unit, TaskTracker.loadTasks (Except.error e) = Json.arr [])
  ∧ TaskTracker.loadTasks (Except.ok Json.null) = Json.arr []
  ∧ (∀ j : Json, j ≠ Json.null → TaskTracker.loadTasks (Except.ok j) = j) := by
  refine ⟨fun _ => rfl, rfl, fun j hj => ?_⟩
  cases j <;> first | rfl | exact absurd rfl hj

/-- C3, witness: an unparsable stored string loads as the empty array,
and a parsable non-null wrong-shape value is kept as is. -/
theorem loadTasks_recovery_spec_w :
    TaskTracker.loadTasks (Except.error ()) = Json.arr []
  ∧ TaskTracker.loadTasks (Except.ok (Json.str "hi")) = Json.str "hi" :=
  ⟨loadTasks_recovery_spec.1 (), loadTasks_recovery_spec.2.2 (Json.str "hi") (fun h => Json.noConfusion h)⟩

/-- C4, counterexample: addTask does prepend the created task, but the
method body ends without a return statement, so its value is undefined
(embedded as none), not the created Task record. -/
theorem addTask_returns_undefined :
    (TaskTracker.addTask "id0" 7 "hello" TaskTracker.initial).1.tasks =
      [{ id := "id0", text := "hello", completed := false, createdAt := 7 }]
  ∧ (TaskTracker.addTask "id0" 7 "hello" TaskTracker.initial).2
      ≠ some { id := "id0", text := "hello", completed := false, createdAt := 7 } :=
  ⟨rfl, fun h => Option.noConfusion h⟩

/-- C4, amended: for non-empty-after-trim text, addTask prepends a task
with the generated id, the given text, completed false and the creation
timestamp, leaves the filter alone, persists the full new sequence, and
returns no value (undefined). -/
theorem addTask_spec (freshId text : String) (now : Int) (s : TaskTracker)
    (h : jsTrim text ≠ "") :
    (TaskTracker.addTask freshId now text s).1.tasks =
      { id := freshId, text := text, completed := false, createdAt := now } :: s.tasks
  ∧ (TaskTracker.addTask freshId now text s).1.filter = s.filter
  ∧ (TaskTracker.addTask freshId now text s).1.writes =
      s.writes ++ [tasksToJson ((TaskTracker.addTask freshId now text s).1.tasks)]
  ∧ (TaskTracker.addTask freshId now text s).2 = none :=
  ⟨rfl, rfl, rfl, rfl⟩

/-- C4, witness: adding the text "hello" to the freshly constructed
store. -/
theorem addTask_spec_w :
    jsTrim "hello" ≠ ""
  ∧ (TaskTracker.addTask "id0" 7 "hello" TaskTracker.initial).1.tasks =
      [{ id := "id0", text := "hello", completed := false, createdAt := 7 }]
  ∧ (TaskTracker.addTask "id0" 7 "hello" TaskTracker.initial).2 = none :=
  ⟨by decide,
   (addTask_spec "id0" "hello" 7 TaskTracker.initial (by decide)).1,
   (addTask_spec "id0" "hello" 7 TaskTracker.initial (by decide)).2.2.2⟩

/-- C5: after add(A) then add(B) on a store whose filter is "all", the
visible tasks are the B task first, then the A task, then every
pre-existing task in its previous order. -/
theorem add_add_newest_first (A B freshA freshB : String) (nowA nowB : Int)
    (s : TaskTracker) (hf : s.filter = "all")
    (hA : jsTrim A ≠ "") (hB : jsTrim B ≠ "") :
    (TaskTracker.getVisibleTasks
        (TaskTracker.addTask freshB nowB B (TaskTracker.addTask freshA nowA A s).1).1).2 =
      { id := freshB, text := B, completed := false, createdAt := nowB } ::
      { id := freshA, text := A, completed := false, createdAt := nowA } :: s.tasks := by
  simp [TaskTracker.getVisibleTasks, TaskTracker.addTask, TaskTracker.saveTasks, hf]

/-- C5, witness: two adds over a store holding one completed task. -/
theorem add_add_newest_first_w :
    ({ tasks := [{ id := "o", text := "old", completed := true, createdAt := 3 }],
       filter := "all", writes := [] } : TaskTracker).filter = "all"
  ∧ jsTrim "taskA" ≠ "" ∧ jsTrim "taskB" ≠ ""
  ∧ (TaskTracker.getVisibleTasks
        (TaskTracker.addTask "idB" 2 "taskB"
          (TaskTracker.addTask "idA" 1 "taskA"
            { tasks := [{ id := "o", text := "old", completed := true, createdAt := 3 }],
              filter := "all", writes := [] }).1).1).2 =
      [{ id := "idB", text := "taskB", completed := false, createdAt := 2 },
       { id := "idA", text := "taskA", completed := false, createdAt := 1 },
       { id := "o", text := "old", completed := true, createdAt := 3 }] :=
  ⟨rfl, by decide, by decide,
   add_add_newest_first "taskA" "taskB" "idA" "idB" 1 2
     { tasks := [{ id := "o", text := "old", completed := true, createdAt := 3 }],
       filter := "all", writes := [] } rfl (by decide) (by decide)⟩

/-- C6: over any store state, the visible tasks under "active" and under
"completed" partition the visible tasks under "all": each is an
order-preserving subsequence, every task of the full list belongs to
exactly one of the two, and together they carry exactly the elements of
the full list. -/
theorem visible_partition (s : TaskTracker) :
    List.Sublist ((TaskTracker.getVisibleTasks { s with filter := "active" }).2)
      ((TaskTracker.getVisibleTasks { s with filter := "all" }).2)
  ∧ List.Sublist ((TaskTracker.getVisibleTasks { s with filter := "completed" }).2)
      ((TaskTracker.getVisibleTasks { s with filter := "all" }).2)
  ∧ (∀ t : Task, t ∈ (TaskTracker.getVisibleTasks { s with filter := "all" }).2 ↔
      (t ∈ (TaskTracker.getVisibleTasks { s with filter := "active" }).2 ∨
       t ∈ (TaskTracker.getVisibleTasks { s with filter := "completed" }).2))
  ∧ (∀ t : Task,
      (t ∈ (TaskTracker.getVisibleTasks { s with filter := "active" }).2 ∧
       t ∈ (TaskTracker.getVisibleTasks { s with filter := "completed" }).2) ↔ False)
  ∧ List.Perm
      ((TaskTracker.getVisibleTasks { s with filter := "active" }).2 ++
       (TaskTracker.getVisibleTasks { s with filter := "completed" }).2)
      ((TaskTracker.getVisibleTasks { s with filter := "all" }).2) := by
  have hact : (TaskTracker.getVisibleTasks { s with filter := "active" }).2 =
      s.tasks.filter (fun t => !t.completed) := by
    simp [TaskTracker.getVisibleTasks]
  have hcom : (TaskTracker.getVisibleTasks { s with filter := "completed" }).2 =
      s.tasks.filter (fun t => t.completed) := by
    simp [TaskTracker.getVisibleTasks]
  have hall : (TaskTracker.getVisibleTasks { s with filter := "all" }).2 = s.tasks := by
    simp [TaskTracker.getVisibleTasks]
  rw [hact, hcom, hall]
  refine ⟨List.filter_sublist s.tasks, List.filter_sublist s.tasks, ?_, ?_, ?_⟩
  · intro t
    cases hc : t.completed <;> simp [List.mem_filter, hc]
  · intro t
    cases hc : t.completed <;> simp [List.mem_filter, hc]
  · have hp := List.filter_append_perm (fun t : Task => !t.completed) s.tasks
    simpa [Bool.not_not] using hp

/-- C7: persistence round-trips.  After any sequence of add, toggle and
delete operations from any store state, serializing the resulting tasks
sequence, loading the persisted value in a fresh construction keeps it as
is, and reading its fields reconstructs the very same tasks sequence,
field for field and in the same order. -/
theorem persistence_round_trip (s : TaskTracker) (ops : List Op) :
    TaskTracker.loadTasks (Except.ok (tasksToJson (applyOps s ops).tasks)) =
      tasksToJson (applyOps s ops).tasks
  ∧ tasksFromJson (tasksToJson (applyOps s ops).tasks) = some (applyOps s ops).tasks :=
  ⟨rfl, tasksFromJsonList_map (applyOps s ops).tasks⟩

/-- C8: when no task carries the given id, toggleTask and deleteTask
leave the tasks sequence unchanged (same elements, order and fields), no
failure occurs, and running either a second time with the same absent id
is again effect-free on the tasks sequence. -/
theorem toggle_delete_unknown_id_noop (id : String) (s : TaskTracker)
    (h : ∀ t ∈ s.tasks, t.id ≠ id) :
    (TaskTracker.toggleTask id s).tasks = s.tasks
  ∧ (TaskTracker.deleteTask id s).tasks = s.tasks
  ∧ (TaskTracker.toggleTask id (TaskTracker.toggleTask id s)).tasks = s.tasks
  ∧ (TaskTracker.deleteTask id (TaskTracker.deleteTask id s)).tasks = s.tasks := by
  have htog : s.tasks.map
      (fun t => if t.id = id then { t with completed := !t.completed } else t) = s.tasks :=
    map_toggle_of_no_match id s.tasks h
  have hdel : s.tasks.filter (fun t => t.id != id) = s.tasks :=
    List.filter_eq_self.mpr (fun t ht => bne_iff_ne.mpr (h t ht))
  refine ⟨?_, ?_, ?_, ?_⟩ <;>
    simp [TaskTracker.toggleTask, TaskTracker.deleteTask, TaskTracker.saveTasks, htog, hdel]

/-- C8, witness: toggling and deleting the id "nonexistent" on a store
holding one task with id "a". -/
theorem toggle_delete_unknown_id_noop_w :
    (∀ t ∈ ({ tasks := [{ id := "a", text := "x", completed := false, createdAt := 0 }],
              filter := "all", writes := [] } : TaskTracker).tasks, t.id ≠ "nonexistent")
  ∧ (TaskTracker.toggleTask "nonexistent"
      { tasks := [{ id := "a", text := "x", completed := false, createdAt := 0 }],
        filter := "all", writes := [] }).tasks =
      [{ id := "a", text := "x", completed := false, createdAt := 0 }]
  ∧ (TaskTracker.deleteTask "nonexistent"
      { tasks := [{ id := "a", text := "x", completed := false, createdAt := 0 }],
        filter := "all", writes := [] }).tasks =
      [{ id := "a", text := "x", completed := false, createdAt := 0 }] :=
  ⟨by decide,
   (toggle_delete_unknown_id_noop "nonexistent"
     { tasks := [{ id := "a", text := "x", completed := false, createdAt := 0 }],
       filter := "all", writes := [] } (by decide)).1,
   (toggle_delete_unknown_id_noop "nonexistent"
     { tasks := [{ id := "a", text := "x", completed := false, createdAt := 0 }],
       filter := "all", writes := [] } (by decide)).2.1⟩

/-- C9: toggleTask and deleteTask call saveTasks unconditionally, so for
every id and every store state each of them appends exactly one write of
the full current (post-operation) tasks sequence to the persistence log,
also when no task carries the id and the sequence is unchanged. -/
theorem toggle_delete_always_persist (id : String) (s : TaskTracker) :
    (TaskTracker.toggleTask id s).writes =
      s.writes ++ [tasksToJson ((TaskTracker.toggleTask id s).tasks)]
  ∧ (TaskTracker.deleteTask id s).writes =
      s.writes ++ [tasksToJson ((TaskTracker.deleteTask id s).tasks)] :=
  ⟨rfl, rfl⟩

/-- C10: whenever the filter field holds any value other than "active"
and "completed" (not only "all"), getVisibleTasks returns the full tasks
sequence unchanged and returns the store state exactly as it was: no
field is mutated and nothing is appended to the persistence log. -/
theorem getVisibleTasks_fallback_all (s : TaskTracker)
    (h1 : s.filter ≠ "active") (h2 : s.filter ≠ "completed") :
    TaskTracker.getVisibleTasks s = (s, s.tasks) := by
  unfold TaskTracker.getVisibleTasks
  rw [if_neg h1, if_neg h2]

/-- C10, witness: reading through an unrecognized filter value. -/
theorem getVisibleTasks_fallback_all_w :
    ({ tasks := [{ id := "a", text := "x", completed := true, createdAt := 0 }],
       filter := "bogus", writes := [] } : TaskTracker).filter ≠ "active"
  ∧ ({ tasks := [{ id := "a", text := "x", completed := true, createdAt := 0 }],
       filter := "bogus", writes := [] } : TaskTracker).filter ≠ "completed"
  ∧ TaskTracker.getVisibleTasks
      { tasks := [{ id := "a", text := "x", completed := true, createdAt := 0 }],
        filter := "bogus", writes := [] } =
      ({ tasks := [{ id := "a", text := "x", completed := true, createdAt := 0 }],
         filter := "bogus", writes := [] },
       [{ id := "a", text := "x", completed := true, createdAt := 0 }]) :=
  ⟨by decide, by decide,
   getVisibleTasks_fallback_all
     { tasks := [{ id := "a", text := "x", completed := true, createdAt := 0 }],
       filter := "bogus", writes := [] } (by decide) (by decide)⟩

end Script
